import Mathlib

/-!
Shallow embedding of `ecs/step_create_instance.go` from the
packer-builder-apsarastack repository: the instance-provisioning step of the
machine-image build pipeline (request building, creation with retry on known
transient vendor error codes, status polling, publication of the created
instance into the shared state bag, and best-effort cleanup).

Vendor API calls, file reads and UUID generation are effects of external
collaborators; they are modelled as explicit environments (`RunEnv`,
`CleanupEnv`) supplying the response to each issued request, while the step
functions return the full trace of requests they issued alongside their
result, so that every property of the step is a statement about a total
function.
-/

/-- Result of a vendor API call: either a successful response or a vendor
error carrying an error code (the step's retry logic matches on codes). -/
inductive ApiResult (α : Type) where
  | ok (val : α)
  | err (code : String)
  deriving DecidableEq, Repr

/-- Type `confighelper.Trilean` from the packer helper library: an
unset/false/true tri-state used for configuration flags. -/
inductive Trilean where
  | TriUnset
  | TriFalse
  | TriTrue
  deriving DecidableEq, Repr

/-- Method `Trilean.True()`: the tri-state is explicitly true. -/
def Trilean.True : Trilean → Bool
  | Trilean.TriTrue => true
  | _ => false

/-- Method `Trilean.False()`: the tri-state is explicitly false. -/
def Trilean.False : Trilean → Bool
  | Trilean.TriFalse => true
  | _ => false

/-- Modelled from the spec: the network mode of the instance, "classic vs.
private-network"; the `InstanceNetWork` type and its constants are declared
elsewhere in the repository. -/
inductive InstanceNetWork where
  | classic
  | vpc
  deriving DecidableEq, Repr

/-- The repository's constant for the private-network (VPC) mode, compared
against in `buildCreateInstanceRequest`. -/
def InstanceNetworkVpc : InstanceNetWork := InstanceNetWork.vpc

/-- Type `ecs.Instance` (vendor SDK): the created resource's descriptor; only the
`InstanceId` field is read by this step. -/
structure Instance where
  InstanceId : String
  deriving DecidableEq, Repr

/-- Type `ecs.Image` (vendor SDK): only `ImageId` is read by this step. -/
structure Image where
  ImageId : String
  deriving DecidableEq, Repr

/-- Function `strconv.FormatBool`. -/
def FormatBool (b : Bool) : String :=
  if b then "true" else "false"

/-- Function `requests.NewBoolean` (vendor SDK): the SDK's boolean request fields are
string-typed. -/
def NewBoolean (b : Bool) : String :=
  FormatBool b

/-- Modelled from the spec: the repository's `convertNumber` helper (declared
elsewhere in the repository) carries a configured number into the SDK's
string-typed integer request fields unchanged. -/
def convertNumber (n : Int) : String :=
  toString n

/-- A disk mapping from the image config (`ECSSystemDiskMapping` /
`ECSImagesDiskMappings` entries); fields as read by
`buildCreateInstanceRequest`. -/
structure DiskDevice where
  DiskName : String
  DiskCategory : String
  DiskSize : Int
  SnapshotId : String
  Description : String
  DeleteWithInstance : Bool
  Device : String
  Encrypted : Trilean
  deriving DecidableEq, Repr

/-- The communicator part of the config; only the two passwords are read. -/
structure CommConfig where
  SSHPassword : String
  WinRMPassword : String
  deriving DecidableEq, Repr

/-- The slice of the builder `Config` read by this step. -/
structure Config where
  ApsaraStackRegion : String
  ApsaraStackSecretKey : String
  Department : String
  ResourceGroup : String
  Comm : CommConfig
  ECSSystemDiskMapping : DiskDevice
  ECSImagesDiskMappings : List DiskDevice
  deriving DecidableEq, Repr

/-- The slice of the orchestrator's shared state bag read by `Run`
(`state.Get` with runtime casts in Go): configuration plus the values
published by earlier steps. -/
structure StateBag where
  config : Config
  source_image : Image
  securitygroupid : String
  networktype : InstanceNetWork
  vswitchid : String
  deriving DecidableEq, Repr

/-- A value published into the shared state bag by `state.Put`. -/
inductive StateValue where
  | instVal (i : Instance)
  | strVal (s : String)
  deriving DecidableEq, Repr

/-- Type `multistep.StepAction`: the step either lets the pipeline continue or
halts it. -/
inductive StepAction where
  | Continue
  | Halt
  deriving DecidableEq, Repr

/-- The step's struct `stepCreateApsaraStackInstance` (the Go field
`instance` is `instance_` here, `instance` being reserved in Lean). -/
structure StepCreateApsaraStackInstance where
  IOOptimized : Trilean
  InstanceType : String
  UserData : String
  UserDataFile : String
  instanceId : String
  RegionId : String
  InternetChargeType : String
  InternetMaxBandwidthOut : Int
  InstanceName : String
  ZoneId : String
  instance_ : Option Instance
  deriving DecidableEq, Repr

/-- Variable `createInstanceRetryErrors`: vendor error codes of creation requests
treated as transient. -/
def createInstanceRetryErrors : List String :=
  ["IdempotentProcessing"]

/-- Variable `deleteInstanceRetryErrors`: vendor error codes of deletion requests
treated as transient. -/
def deleteInstanceRetryErrors : List String :=
  ["IncorrectInstanceStatus.Initializing"]

/-- Modelled from the spec: the client's default retry budget ("a bounded
retry count") used when a `WaitForExpectArgs` does not set `RetryTimes`; the
constant lives elsewhere in the repository, the spec fixes only that the
deletion budget is shorter. -/
def defaultRetryTimes : Nat := 10

/-- Modelled from the spec: the "shorter retry budget" used by Cleanup's
deletion request (`shortRetryTimes`, declared elsewhere in the
repository). -/
def shortRetryTimes : Nat := 5

/-- Modelled from the spec: the vendor status name of the target state the
step polls for, "a \"stopped\" status" (`InstanceStatusStopped`, declared
elsewhere in the repository). -/
def InstanceStatusStopped : String := "Stopped"

/-- The repository's `IoOptimized` request value for an optimized instance
(constant declared elsewhere in the repository). -/
def IOOptimizedOptimized : String := "optimized"

/-- The repository's `IoOptimized` request value for a non-optimized
instance (constant declared elsewhere in the repository). -/
def IOOptimizedNone : String := "none"

/-- Recursion core of the retry wrapper: `responses i` is the vendor's
answer to the `i`-th issued request; returns the final result together with
the total number of requests issued. -/
def waitForExpectedAux {α : Type} (retryErrors : List String)
    (responses : Nat → ApiResult α) : Nat → Nat → ApiResult α × Nat
  | fuel, i =>
    match responses i with
    | ApiResult.ok v => (ApiResult.ok v, i + 1)
    | ApiResult.err c =>
      match fuel with
      | 0 => (ApiResult.err c, i + 1)
      | fuel' + 1 =>
        if c ∈ retryErrors then
          waitForExpectedAux retryErrors responses fuel' (i + 1)
        else
          (ApiResult.err c, i + 1)

/-- Modelled from the spec: the Cloud Client's generic retry helper
`WaitForExpected` (declared elsewhere in the repository), which "re-issues
the call while the returned error matches the ... retry set, up to a bounded
retry count"; an error outside the retry set, or exhaustion of the budget,
ends the loop with that error. -/
def waitForExpected {α : Type} (retryErrors : List String) (retryTimes : Nat)
    (responses : Nat → ApiResult α) : ApiResult α × Nat :=
  waitForExpectedAux retryErrors responses retryTimes 0

/-- UTF-8 encoding of a single character (`[]byte(string)` in Go encodes the
string as UTF-8). -/
def utf8EncodeChar (c : Char) : List Nat :=
  let n := c.toNat
  if n < 128 then [n]
  else if n < 2048 then [192 + n / 64, 128 + n % 64]
  else if n < 65536 then [224 + n / 4096, 128 + n / 64 % 64, 128 + n % 64]
  else [240 + n / 262144, 128 + n / 4096 % 64, 128 + n / 64 % 64, 128 + n % 64]

/-- The UTF-8 bytes of a string, as `[]byte(s)` produces them in Go. -/
def stringBytes (s : String) : List Nat :=
  (s.toList.map utf8EncodeChar).flatten

/-- The standard base64 alphabet used by `base64.StdEncoding`. -/
def base64Alphabet : List Char :=
  "ABCDEFGHIJKLMNOPQRSTUVWXYZabcdefghijklmnopqrstuvwxyz0123456789+/".toList

/-- The base64 digit for a 6-bit value. -/
def base64Digit (n : Nat) : Char :=
  base64Alphabet.getD n '='

/-- Base64 encoding of a byte sequence, three input bytes to four output
characters, with `=` padding (`base64.StdEncoding`). -/
def base64EncodeBytes : List Nat → List Char
  | [] => []
  | [b0] =>
    [base64Digit (b0 / 4), base64Digit (b0 % 4 * 16), '=', '=']
  | [b0, b1] =>
    [base64Digit (b0 / 4), base64Digit (b0 % 4 * 16 + b1 / 16),
      base64Digit (b1 % 16 * 4), '=']
  | b0 :: b1 :: b2 :: rest =>
    base64Digit (b0 / 4) :: base64Digit (b0 % 4 * 16 + b1 / 16) ::
      base64Digit (b1 % 16 * 4 + b2 / 64) :: base64Digit (b2 % 64) ::
      base64EncodeBytes rest

/-- Function `base64.StdEncoding.EncodeToString` applied to `[]byte(s)`. -/
def base64Encode (s : String) : String :=
  String.mk (base64EncodeBytes (stringBytes s))

/-- Type `ecs.CreateInstanceDataDisk` (vendor SDK): one data-disk entry of the
creation request; all fields string-typed, zero value the empty string. -/
structure CreateInstanceDataDisk where
  DiskName : String := ""
  Category : String := ""
  Size : String := ""
  SnapshotId : String := ""
  Description : String := ""
  DeleteWithInstance : String := ""
  Device : String := ""
  Encrypted : String := ""
  deriving DecidableEq, Repr

/-- Type `ecs.CreateInstanceRequest` (vendor SDK): the fields this step writes;
every field starts at its zero value. -/
structure CreateInstanceRequest where
  Headers : List (String × String) := []
  QueryParams : List (String × String) := []
  ClientToken : String := ""
  RegionId : String := ""
  InstanceType : String := ""
  InstanceName : String := ""
  ZoneId : String := ""
  ImageId : String := ""
  SecurityGroupId : String := ""
  VSwitchId : String := ""
  UserData : String := ""
  InternetChargeType : String := ""
  InternetMaxBandwidthOut : String := ""
  IoOptimized : String := ""
  Password : String := ""
  SystemDiskDiskName : String := ""
  SystemDiskCategory : String := ""
  SystemDiskSize : String := ""
  SystemDiskDescription : String := ""
  DataDisk : List CreateInstanceDataDisk := []
  deriving DecidableEq, Repr

/-- Constructor `ecs.CreateCreateInstanceRequest()`: a fresh request with every field at
its zero value. -/
def CreateCreateInstanceRequest : CreateInstanceRequest := {}

/-- Type `ecs.DescribeInstancesRequest` (vendor SDK): the fields this step
writes. -/
structure DescribeInstancesRequest where
  Headers : List (String × String) := []
  QueryParams : List (String × String) := []
  InstanceIds : String := ""
  deriving DecidableEq, Repr

/-- Type `ecs.DeleteInstanceRequest` (vendor SDK): the fields this step
writes. -/
structure DeleteInstanceRequest where
  Headers : List (String × String) := []
  QueryParams : List (String × String) := []
  InstanceId : String := ""
  Force : String := ""
  deriving DecidableEq, Repr

/-- Method `getUserData`: resolves the user-data source (contents of
`UserDataFile` when that path is non-empty, the inline `UserData` string
otherwise; a file-read failure is returned as an error) and base64-encodes
the resolved payload when it is non-empty. `readFile` stands for
`ioutil.ReadFile`. -/
def getUserData (s : StepCreateApsaraStackInstance)
    (readFile : String → Except String String) : Except String String :=
  let userData := s.UserData
  let resolved : Except String String :=
    if s.UserDataFile ≠ "" then readFile s.UserDataFile
    else Except.ok userData
  match resolved with
  | Except.error e => Except.error e
  | Except.ok userData =>
    Except.ok (if userData ≠ "" then base64Encode userData else userData)

/-- The loop body of `buildCreateInstanceRequest` over
`ECSImagesDiskMappings`: builds one `CreateInstanceDataDisk` from one
configured disk mapping; the `Encrypted` field is written only when the
tri-state is not unset. -/
def buildDataDisk (imageDisk : DiskDevice) : CreateInstanceDataDisk :=
  let dataDisk : CreateInstanceDataDisk := {}
  let dataDisk := { dataDisk with
    DiskName := imageDisk.DiskName
    Category := imageDisk.DiskCategory
    Size := convertNumber imageDisk.DiskSize
    SnapshotId := imageDisk.SnapshotId
    Description := imageDisk.Description
    DeleteWithInstance := FormatBool imageDisk.DeleteWithInstance
    Device := imageDisk.Device }
  if imageDisk.Encrypted ≠ Trilean.TriUnset then
    { dataDisk with Encrypted := FormatBool imageDisk.Encrypted.True }
  else
    dataDisk

/-- Method `buildCreateInstanceRequest`: assembles the creation request from the
step's fields, the config and the shared state. `uuids next` is the value
`uuid.TimeOrderedUUID()` returns for the `next`-th generation of this run;
the returned counter records how many tokens were generated. In classic
(non-VPC) network mode the charge-type and bandwidth defaults are written
back onto the step itself (the Go method mutates the receiver), so the
possibly-updated step is returned alongside the request. -/
def buildCreateInstanceRequest (s : StepCreateApsaraStackInstance)
    (state : StateBag) (readFile : String → Except String String)
    (uuids : Nat → String) (next : Nat) :
    Except String (CreateInstanceRequest × StepCreateApsaraStackInstance) × Nat :=
  let request := CreateCreateInstanceRequest
  let config := state.config
  let request := { request with
    Headers := [("RegionId", config.ApsaraStackRegion)]
    QueryParams := [("AccessKeySecret", config.ApsaraStackSecretKey),
      ("Product", "ecs"), ("Department", config.Department),
      ("ResourceGroup", config.ResourceGroup)] }
  let request := { request with
    ClientToken := uuids next
    RegionId := s.RegionId
    InstanceType := s.InstanceType
    InstanceName := s.InstanceName
    ZoneId := s.ZoneId }
  let next := next + 1
  let sourceImage := state.source_image
  let request := { request with ImageId := sourceImage.ImageId }
  let request := { request with SecurityGroupId := state.securitygroupid }
  let networkType := state.networktype
  let branch :
      Except String (CreateInstanceRequest × StepCreateApsaraStackInstance) :=
    if networkType = InstanceNetworkVpc then
      let request := { request with VSwitchId := state.vswitchid }
      match getUserData s readFile with
      | Except.error e => Except.error e
      | Except.ok userData =>
        Except.ok ({ request with UserData := userData }, s)
    else
      let s := { s with
        InternetChargeType :=
          if s.InternetChargeType = "" then "PayByTraffic"
          else s.InternetChargeType }
      let s := { s with
        InternetMaxBandwidthOut :=
          if s.InternetMaxBandwidthOut = 0 then 5
          else s.InternetMaxBandwidthOut }
      Except.ok (request, s)
  match branch with
  | Except.error e => (Except.error e, next)
  | Except.ok (request, s) =>
    let request := { request with
      InternetChargeType := s.InternetChargeType
      InternetMaxBandwidthOut := convertNumber s.InternetMaxBandwidthOut }
    let request :=
      if s.IOOptimized.True then
        { request with IoOptimized := IOOptimizedOptimized }
      else if s.IOOptimized.False then
        { request with IoOptimized := IOOptimizedNone }
      else
        request
    let password := config.Comm.SSHPassword
    let password :=
      if password = "" ∧ config.Comm.WinRMPassword ≠ "" then
        config.Comm.WinRMPassword
      else password
    let request := { request with Password := password }
    let systemDisk := config.ECSSystemDiskMapping
    let request := { request with
      SystemDiskDiskName := systemDisk.DiskName
      SystemDiskCategory := systemDisk.DiskCategory
      SystemDiskSize := convertNumber systemDisk.DiskSize
      SystemDiskDescription := systemDisk.Description }
    let imageDisks := config.ECSImagesDiskMappings
    let dataDisks := imageDisks.map buildDataDisk
    let request := { request with DataDisk := dataDisks }
    (Except.ok (request, s), next)

/-- The describe request `Run` builds after the instance reaches the target
status: headers and query params from the config, and the created instance's
id inside `InstanceIds` (Go formats it as `["<id>"]`). -/
def describeInstancesRequestFor (config : Config) (instanceId : String) :
    DescribeInstancesRequest :=
  { Headers := [("RegionId", config.ApsaraStackRegion)]
    QueryParams := [("AccessKeySecret", config.ApsaraStackSecretKey),
      ("Product", "ecs")]
    InstanceIds := "[\"" ++ instanceId ++ "\"]" }

/-- The deletion request built inside Cleanup's retry closure: headers and
query params from the config, the recorded instance's id, and the force flag
set via `requests.NewBoolean(true)`. -/
def deleteInstanceRequestFor (config : Config) (inst : Instance) :
    DeleteInstanceRequest :=
  { Headers := [("RegionId", config.ApsaraStackRegion)]
    QueryParams := [("AccessKeySecret", config.ApsaraStackSecretKey),
      ("Product", "ecs"), ("Department", config.Department),
      ("ResourceGroup", config.ResourceGroup)]
    InstanceId := inst.InstanceId
    Force := NewBoolean true }

/-- The external effects `Run` depends on: the UUID generator (`uuids n` is
the `n`-th generated token), `ioutil.ReadFile`, and the Cloud Client's three
calls. `createInstance req i` is the vendor's answer (the new instance id on
success) to the `i`-th issue of `req`; `waitForInstanceStatus region id
status` is the outcome of the blocking status poll; `describeInstances req`
returns the instance descriptors (the `Instances.Instance` slice of the
response). -/
structure RunEnv where
  uuids : Nat → String
  readFile : String → Except String String
  createInstance : CreateInstanceRequest → Nat → ApiResult String
  waitForInstanceStatus : String → String → String → ApiResult Unit
  describeInstances : DescribeInstancesRequest → ApiResult (List Instance)

/-- Everything observable about one invocation of `Run`: the returned step
action (`none` models the Go runtime abort when the describe response's
instance slice is indexed empty), the step struct after the run (its
`instance_` field in particular), the `state.Put` calls made, how many
client tokens were generated, and the trace of requests issued to the Cloud
Client. `haltError` records the message prefix and vendor error code handed
to the repository's `halt` helper, when the run halted on an error. -/
structure RunResult where
  action : Option StepAction
  step : StepCreateApsaraStackInstance
  statePuts : List (String × StateValue)
  uuidCount : Nat
  createRequests : List CreateInstanceRequest
  waitStatusCalls : List (String × String × String)
  describeRequests : List DescribeInstancesRequest
  haltError : Option (String × String)
  deriving DecidableEq, Repr

/-- Method `stepCreateApsaraStackInstance.Run`: builds the creation request, issues
it through the retry wrapper against `createInstanceRetryErrors`, polls the
created instance until `InstanceStatusStopped`, re-fetches its descriptor by
id, publishes descriptor and id into the shared state, and continues; any
error halts. The creation closure re-issues the one request value built
before the loop, so the creation trace is that request repeated once per
issued call. -/
def Run (s : StepCreateApsaraStackInstance) (state : StateBag)
    (env : RunEnv) : RunResult :=
  let config := state.config
  match buildCreateInstanceRequest s state env.readFile env.uuids 0 with
  | (Except.error e, u) =>
    { action := some StepAction.Halt, step := s, statePuts := []
      uuidCount := u, createRequests := [], waitStatusCalls := []
      describeRequests := [], haltError := some ("", e) }
  | (Except.ok (createInstanceRequest, s), u) =>
    let createResult := waitForExpected createInstanceRetryErrors
      defaultRetryTimes (fun i => env.createInstance createInstanceRequest i)
    let createRequests := List.replicate createResult.2 createInstanceRequest
    match createResult.1 with
    | ApiResult.err e =>
      { action := some StepAction.Halt, step := s, statePuts := []
        uuidCount := u, createRequests := createRequests
        waitStatusCalls := [], describeRequests := []
        haltError := some ("Error creating instance", e) }
    | ApiResult.ok instanceId =>
      let waitStatusCalls := [(s.RegionId, instanceId, InstanceStatusStopped)]
      match env.waitForInstanceStatus s.RegionId instanceId
          InstanceStatusStopped with
      | ApiResult.err e =>
        { action := some StepAction.Halt, step := s, statePuts := []
          uuidCount := u, createRequests := createRequests
          waitStatusCalls := waitStatusCalls, describeRequests := []
          haltError := some ("Error waiting create instance", e) }
      | ApiResult.ok _ =>
        let describeInstancesRequest :=
          describeInstancesRequestFor config instanceId
        match env.describeInstances describeInstancesRequest with
        | ApiResult.err e =>
          { action := some StepAction.Halt, step := s, statePuts := []
            uuidCount := u, createRequests := createRequests
            waitStatusCalls := waitStatusCalls
            describeRequests := [describeInstancesRequest]
            haltError := some ("", e) }
        | ApiResult.ok instances =>
          match instances with
          | [] =>
            { action := none, step := s, statePuts := []
              uuidCount := u, createRequests := createRequests
              waitStatusCalls := waitStatusCalls
              describeRequests := [describeInstancesRequest]
              haltError := none }
          | inst :: _ =>
            let s := { s with instance_ := some inst }
            { action := some StepAction.Continue, step := s
              statePuts := [("instance", StateValue.instVal inst),
                ("instance_id", StateValue.strVal instanceId)]
              uuidCount := u, createRequests := createRequests
              waitStatusCalls := waitStatusCalls
              describeRequests := [describeInstancesRequest]
              haltError := none }

/-- Modelled from the spec: the repository's `cleanUpMessage` helper logs a
teardown message for the named resource ("Failure to clean up is logged");
its exact wording lives elsewhere in the repository. -/
def cleanUpMessage (resourceName : String) : String :=
  "Cleaning up " ++ resourceName

/-- The external effect `Cleanup` depends on: `deleteInstance req i` is the
vendor's answer to the `i`-th issue of the deletion request `req`. -/
structure CleanupEnv where
  deleteInstance : DeleteInstanceRequest → Nat → ApiResult Unit

/-- Everything observable about one invocation of `Cleanup`: the trace of
deletion requests issued and the messages written to the UI. `Cleanup`
returns nothing in Go and has no error channel here either: a deletion
failure can only surface inside `uiMessages`. -/
structure CleanupResult where
  deleteRequests : List DeleteInstanceRequest
  uiMessages : List String
  deriving DecidableEq, Repr

/-- Method `stepCreateApsaraStackInstance.Cleanup`: returns immediately when no
instance was recorded; otherwise issues the deletion request through the
retry wrapper against `deleteInstanceRetryErrors` with the short budget, and
on final failure only logs the error. The Go closure rebuilds an identical
request each attempt, so the trace is that request repeated once per issued
call. -/
def Cleanup (s : StepCreateApsaraStackInstance) (state : StateBag)
    (env : CleanupEnv) : CleanupResult :=
  match s.instance_ with
  | none => { deleteRequests := [], uiMessages := [] }
  | some inst =>
    let messages := [cleanUpMessage "instance"]
    let config := state.config
    let request := deleteInstanceRequestFor config inst
    let deleteResult := waitForExpected deleteInstanceRetryErrors
      shortRetryTimes (fun i => env.deleteInstance request i)
    let deleteRequests := List.replicate deleteResult.2 request
    match deleteResult.1 with
    | ApiResult.ok _ =>
      { deleteRequests := deleteRequests, uiMessages := messages }
    | ApiResult.err e =>
      { deleteRequests := deleteRequests
        uiMessages := messages ++
          ["Failed to clean up instance " ++ inst.InstanceId ++ ": " ++ e] }

theorem waitForExpected_first_ok {α : Type} (retryErrors : List String)
    (retryTimes : Nat) (responses : Nat → ApiResult α) (v : α)
    (h0 : responses 0 = ApiResult.ok v) :
    waitForExpected retryErrors retryTimes responses = (ApiResult.ok v, 1) := by
  unfold waitForExpected waitForExpectedAux
  simp [h0]

theorem waitForExpectedAux_fatal {α : Type} (retryErrors : List String)
    (responses : Nat → ApiResult α) :
    ∀ (k fuel i : Nat) (c : String),
      (∀ j, j < k → ∃ cj, responses (i + j) = ApiResult.err cj ∧
        cj ∈ retryErrors) →
      responses (i + k) = ApiResult.err c → c ∉ retryErrors → k ≤ fuel →
      waitForExpectedAux retryErrors responses fuel i =
        (ApiResult.err c, i + k + 1) := by
  intro k
  induction k with
  | zero =>
    intro fuel i c _ hk hc _
    rw [Nat.add_zero] at hk
    unfold waitForExpectedAux
    rw [hk]
    cases fuel with
    | zero => rfl
    | succ f => simp [hc]
  | succ k ih =>
    intro fuel i c hpre hk hc hb
    obtain ⟨c0, hc0, hc0mem⟩ := hpre 0 (Nat.succ_pos k)
    rw [Nat.add_zero] at hc0
    unfold waitForExpectedAux
    rw [hc0]
    cases fuel with
    | zero => omega
    | succ f =>
      simp only [hc0mem, if_pos]
      have hpre' : ∀ j, j < k → ∃ cj, responses (i + 1 + j) = ApiResult.err cj ∧
          cj ∈ retryErrors := by
        intro j hj
        obtain ⟨cj, h1, h2⟩ := hpre (j + 1) (Nat.succ_lt_succ hj)
        exact ⟨cj, by rw [show i + 1 + j = i + (j + 1) by omega]; exact h1, h2⟩
      have hk' : responses (i + 1 + k) = ApiResult.err c := by
        rw [show i + 1 + k = i + (k + 1) by omega]
        exact hk
      have := ih f (i + 1) c hpre' hk' hc (Nat.le_of_succ_le_succ hb)
      rw [this]
      congr 1
      omega

theorem waitForExpected_fatal {α : Type} (retryErrors : List String)
    (retryTimes : Nat) (responses : Nat → ApiResult α) (k : Nat) (c : String)
    (hpre : ∀ j, j < k → ∃ cj, responses j = ApiResult.err cj ∧
      cj ∈ retryErrors)
    (hk : responses k = ApiResult.err c) (hc : c ∉ retryErrors)
    (hb : k ≤ retryTimes) :
    waitForExpected retryErrors retryTimes responses = (ApiResult.err c, k + 1) := by
  unfold waitForExpected
  have := waitForExpectedAux_fatal retryErrors responses k retryTimes 0 c
    (by intro j hj; simpa using hpre j hj) (by simpa using hk) hc hb
  simpa using this

theorem buildCreateInstanceRequest_uuidCount (s : StepCreateApsaraStackInstance)
    (state : StateBag) (readFile : String → Except String String)
    (uuids : Nat → String) (next : Nat) :
    (buildCreateInstanceRequest s state readFile uuids next).2 = next + 1 := by
  unfold buildCreateInstanceRequest
  by_cases hn : state.networktype = InstanceNetworkVpc
  · cases hud : getUserData s readFile <;> simp [hn, hud]
  · simp [hn]

theorem buildCreateInstanceRequest_ok_spec (s : StepCreateApsaraStackInstance)
    (state : StateBag) (readFile : String → Except String String)
    (uuids : Nat → String) (next : Nat)
    (req : CreateInstanceRequest) (s' : StepCreateApsaraStackInstance) (u : Nat)
    (h : buildCreateInstanceRequest s state readFile uuids next =
      (Except.ok (req, s'), u)) :
    u = next + 1 ∧
    req.ClientToken = uuids next ∧
    req.DataDisk = state.config.ECSImagesDiskMappings.map buildDataDisk ∧
    s'.instance_ = s.instance_ ∧
    req.InternetChargeType = s'.InternetChargeType ∧
    req.InternetMaxBandwidthOut = convertNumber s'.InternetMaxBandwidthOut ∧
    (state.networktype = InstanceNetworkVpc → s' = s) ∧
    (state.networktype ≠ InstanceNetworkVpc →
      req.UserData = "" ∧
      s'.InternetChargeType =
        (if s.InternetChargeType = "" then "PayByTraffic"
          else s.InternetChargeType) ∧
      s'.InternetMaxBandwidthOut =
        (if s.InternetMaxBandwidthOut = 0 then 5
          else s.InternetMaxBandwidthOut)) := by
  unfold buildCreateInstanceRequest at h
  by_cases hn : state.networktype = InstanceNetworkVpc
  · cases hud : getUserData s readFile with
    | error e => simp [hn, hud] at h
    | ok ud =>
      simp only [hn, hud, if_pos, Prod.mk.injEq, Except.ok.injEq] at h
      obtain ⟨⟨hreq, hs⟩, hu⟩ := h
      subst hreq hs hu
      refine ⟨rfl, ?_, ?_, rfl, ?_, ?_, fun _ => rfl, fun hcl => absurd hn hcl⟩
      all_goals cases hio : s.IOOptimized <;> rfl
  · simp only [hn, if_neg, Prod.mk.injEq, Except.ok.injEq, ite_false] at h
    obtain ⟨⟨hreq, hs⟩, hu⟩ := h
    subst hreq hs hu
    refine ⟨rfl, ?_, ?_, rfl, ?_, ?_, fun hv => absurd hv hn, fun _ => ⟨?_, rfl, rfl⟩⟩
    all_goals cases hio : s.IOOptimized <;> rfl

theorem Run_uuidCount_createRequests (s : StepCreateApsaraStackInstance)
    (state : StateBag) (env : RunEnv) :
    (Run s state env).uuidCount =
      (buildCreateInstanceRequest s state env.readFile env.uuids 0).2 ∧
    ((Run s state env).createRequests = [] ∨
      ∃ req s' u n,
        buildCreateInstanceRequest s state env.readFile env.uuids 0 =
          (Except.ok (req, s'), u) ∧
        (Run s state env).createRequests = List.replicate n req) := by
  rcases hb : buildCreateInstanceRequest s state env.readFile env.uuids 0 with ⟨res, u⟩
  cases res with
  | error e =>
    unfold Run
    rw [hb]
    simp
  | ok p =>
    rcases p with ⟨req, s'⟩
    rcases hw : waitForExpected createInstanceRetryErrors defaultRetryTimes
        (fun i => env.createInstance req i) with ⟨cr, n⟩
    cases cr with
    | err e =>
      unfold Run
      rw [hb]
      simp only [hw]
      refine ⟨?_, Or.inr ⟨req, s', u, n, rfl, ?_⟩⟩ <;> first | rfl | trivial
    | ok instId =>
      unfold Run
      rw [hb]
      simp only [hw]
      cases hws : env.waitForInstanceStatus s'.RegionId instId
          InstanceStatusStopped with
      | err e => refine ⟨?_, Or.inr ⟨req, s', u, n, rfl, ?_⟩⟩ <;> rfl
      | ok v =>
        cases hd : env.describeInstances
            (describeInstancesRequestFor state.config instId) with
        | err e => refine ⟨?_, Or.inr ⟨req, s', u, n, rfl, ?_⟩⟩ <;> rfl
        | ok instances =>
          cases instances with
          | nil => refine ⟨?_, Or.inr ⟨req, s', u, n, rfl, ?_⟩⟩ <;> rfl
          | cons inst rest => refine ⟨?_, Or.inr ⟨req, s', u, n, rfl, ?_⟩⟩ <;> rfl

/-- A sample disk mapping used to instantiate the theorems below. -/
def sampleDisk : DiskDevice :=
  { DiskName := "data", DiskCategory := "cloud_ssd", DiskSize := 40
    SnapshotId := "", Description := "", DeleteWithInstance := true
    Device := "/dev/xvdb", Encrypted := Trilean.TriUnset }

/-- A sample builder config used to instantiate the theorems below. -/
def sampleConfig : Config :=
  { ApsaraStackRegion := "cn-region-d01"
    ApsaraStackSecretKey := "secret"
    Department := "dept"
    ResourceGroup := "rg"
    Comm := { SSHPassword := "pw", WinRMPassword := "" }
    ECSSystemDiskMapping := sampleDisk
    ECSImagesDiskMappings := [sampleDisk] }

/-- A sample state bag in classic network mode. -/
def sampleState : StateBag :=
  { config := sampleConfig
    source_image := { ImageId := "m-sample" }
    securitygroupid := "sg-sample"
    networktype := InstanceNetWork.classic
    vswitchid := "vsw-sample" }

/-- The sample state bag switched to private-network (VPC) mode. -/
def sampleStateVpc : StateBag :=
  { sampleState with networktype := InstanceNetWork.vpc }

/-- A sample step struct as the orchestrator would construct it: every
configurable field at its zero value apart from the identifiers, and no
instance recorded yet. -/
def sampleStep : StepCreateApsaraStackInstance :=
  { IOOptimized := Trilean.TriUnset
    InstanceType := "ecs.n1.tiny"
    UserData := ""
    UserDataFile := ""
    instanceId := ""
    RegionId := "cn-region-d01"
    InternetChargeType := ""
    InternetMaxBandwidthOut := 0
    InstanceName := "packer-builder"
    ZoneId := "zone-a"
    instance_ := none }

/-- A sample created instance descriptor. -/
def sampleInstance : Instance := { InstanceId := "i-sample" }

/-- The sample step after an instance has been recorded as created. -/
def sampleStepCreated : StepCreateApsaraStackInstance :=
  { sampleStep with instance_ := some sampleInstance }

/-- A sample UUID stream for the client-token generator. -/
def sampleUuids : Nat → String := fun n => "client-token-" ++ toString n

/-- A sample file system in which every read fails. -/
def sampleReadFile : String → Except String String :=
  fun _ => Except.error "open: no such file"

/-- The creation request and updated step that
`buildCreateInstanceRequest` produces on the sample inputs in classic
mode (where building cannot fail). -/
def sampleBuiltClassic :
    CreateInstanceRequest × StepCreateApsaraStackInstance :=
  match buildCreateInstanceRequest sampleStep sampleState sampleReadFile
      sampleUuids 0 with
  | (Except.ok p, _) => p
  | (Except.error _, _) => ({}, sampleStep)

/-- A run environment whose creation call always fails with a
non-retryable vendor code. -/
def envCreateFatal : RunEnv :=
  { uuids := sampleUuids
    readFile := sampleReadFile
    createInstance := fun _ _ => ApiResult.err "InvalidParameter"
    waitForInstanceStatus := fun _ _ _ => ApiResult.ok ()
    describeInstances := fun _ => ApiResult.ok [sampleInstance] }

/-- C1: for every creation attempt whose returned vendor error code is not
in the creation retry set (`createInstanceRetryErrors`, which contains only
"IdempotentProcessing"), `Run` halts the pipeline without re-issuing the
creation request: if attempts `0..k-1` failed retryably and attempt `k`
fails with a code outside the set, exactly `k + 1` creation requests are
issued and the run halts with that error. -/
theorem c1_fatal_create_error_halts_without_reissue
    (s : StepCreateApsaraStackInstance) (state : StateBag) (env : RunEnv)
    (req : CreateInstanceRequest) (s' : StepCreateApsaraStackInstance)
    (u k : Nat) (c : String)
    (hbuild : buildCreateInstanceRequest s state env.readFile env.uuids 0 =
      (Except.ok (req, s'), u))
    (hpre : ∀ j, j < k → ∃ cj, env.createInstance req j = ApiResult.err cj ∧
      cj ∈ createInstanceRetryErrors)
    (hresp : env.createInstance req k = ApiResult.err c)
    (hfatal : c ∉ createInstanceRetryErrors)
    (hbound : k ≤ defaultRetryTimes) :
    (Run s state env).action = some StepAction.Halt ∧
    (Run s state env).createRequests = List.replicate (k + 1) req ∧
    (Run s state env).haltError = some ("Error creating instance", c) := by
  have hw : waitForExpected createInstanceRetryErrors defaultRetryTimes
      (fun i => env.createInstance req i) = (ApiResult.err c, k + 1) :=
    waitForExpected_fatal _ _ _ k c hpre hresp hfatal hbound
  unfold Run
  rw [hbuild]
  simp [hw]

theorem c1_fatal_create_error_halts_without_reissue_witness :
    (Run sampleStep sampleState envCreateFatal).action =
      some StepAction.Halt ∧
    (Run sampleStep sampleState envCreateFatal).createRequests =
      List.replicate 1 sampleBuiltClassic.1 ∧
    (Run sampleStep sampleState envCreateFatal).haltError =
      some ("Error creating instance", "InvalidParameter") :=
  c1_fatal_create_error_halts_without_reissue sampleStep sampleState
    envCreateFatal sampleBuiltClassic.1 sampleBuiltClassic.2 1 0
    "InvalidParameter" rfl (fun j hj => absurd hj (Nat.not_lt_zero j)) rfl
    (by decide) (by decide)

/-- A cleanup environment whose deletion call always fails with a
non-retryable vendor code. -/
def envDeleteFatal : CleanupEnv :=
  { deleteInstance := fun _ _ => ApiResult.err "DependencyViolation" }

/-- C2: `Cleanup` is a no-op when no instance was recorded as created
(`instance_` is `none`), and when the deletion attempt fails after its
retry budget the error only appears as a UI message — `Cleanup` returns a
normal result carrying it, with no error channel. -/
theorem c2_cleanup_noop_when_nil_and_never_escalates
    (s : StepCreateApsaraStackInstance) (state : StateBag)
    (env : CleanupEnv) :
    (s.instance_ = none →
      Cleanup s state env = { deleteRequests := [], uiMessages := [] }) ∧
    (∀ inst e n, s.instance_ = some inst →
      waitForExpected deleteInstanceRetryErrors shortRetryTimes
        (fun i => env.deleteInstance
          (deleteInstanceRequestFor state.config inst) i) =
        (ApiResult.err e, n) →
      Cleanup s state env =
        { deleteRequests :=
            List.replicate n (deleteInstanceRequestFor state.config inst)
          uiMessages := [cleanUpMessage "instance",
            "Failed to clean up instance " ++ inst.InstanceId ++ ": " ++ e] }) := by
  constructor
  · intro h
    unfold Cleanup
    rw [h]
  · intro inst e n h hw
    unfold Cleanup
    rw [h]
    simp [hw]

theorem c2_cleanup_noop_when_nil_and_never_escalates_witness :
    Cleanup sampleStep sampleState envDeleteFatal =
      { deleteRequests := [], uiMessages := [] } ∧
    Cleanup sampleStepCreated sampleState envDeleteFatal =
      { deleteRequests :=
          List.replicate 1
            (deleteInstanceRequestFor sampleState.config sampleInstance)
        uiMessages := [cleanUpMessage "instance",
          "Failed to clean up instance " ++ sampleInstance.InstanceId ++
            ": " ++ "DependencyViolation"] } :=
  ⟨(c2_cleanup_noop_when_nil_and_never_escalates sampleStep sampleState
      envDeleteFatal).1 rfl,
    (c2_cleanup_noop_when_nil_and_never_escalates sampleStepCreated
      sampleState envDeleteFatal).2 sampleInstance "DependencyViolation" 1
      rfl rfl⟩

/-- A run environment for the success path: creation succeeds immediately,
the status poll succeeds, and the describe call returns the sample
descriptor. -/
def envSuccess : RunEnv :=
  { uuids := sampleUuids
    readFile := sampleReadFile
    createInstance := fun _ _ => ApiResult.ok "i-sample"
    waitForInstanceStatus := fun _ _ _ => ApiResult.ok ()
    describeInstances := fun _ => ApiResult.ok [sampleInstance] }

/-- C3: on every successful run, after the creation call succeeds `Run`
polls the instance until `InstanceStatusStopped`, re-fetches the full
descriptor by the instance's id via a describe call, publishes the
descriptor under the shared-state key "instance" and the id under
"instance_id", and returns the continue action. -/
theorem c3_success_polls_stopped_refetches_and_publishes
    (s : StepCreateApsaraStackInstance) (state : StateBag) (env : RunEnv)
    (req : CreateInstanceRequest) (s' : StepCreateApsaraStackInstance)
    (u n : Nat) (instId : String) (inst : Instance) (rest : List Instance)
    (hbuild : buildCreateInstanceRequest s state env.readFile env.uuids 0 =
      (Except.ok (req, s'), u))
    (hcreate : waitForExpected createInstanceRetryErrors defaultRetryTimes
      (fun i => env.createInstance req i) = (ApiResult.ok instId, n))
    (hwait : env.waitForInstanceStatus s'.RegionId instId
      InstanceStatusStopped = ApiResult.ok ())
    (hdesc : env.describeInstances
        (describeInstancesRequestFor state.config instId) =
      ApiResult.ok (inst :: rest)) :
    Run s state env =
      { action := some StepAction.Continue
        step := { s' with instance_ := some inst }
        statePuts := [("instance", StateValue.instVal inst),
          ("instance_id", StateValue.strVal instId)]
        uuidCount := u
        createRequests := List.replicate n req
        waitStatusCalls := [(s'.RegionId, instId, InstanceStatusStopped)]
        describeRequests := [describeInstancesRequestFor state.config instId]
        haltError := none } := by
  unfold Run
  rw [hbuild]
  simp [hcreate, hwait, hdesc]

theorem c3_success_polls_stopped_refetches_and_publishes_witness :
    Run sampleStep sampleState envSuccess =
      { action := some StepAction.Continue
        step := { sampleBuiltClassic.2 with instance_ := some sampleInstance }
        statePuts := [("instance", StateValue.instVal sampleInstance),
          ("instance_id", StateValue.strVal "i-sample")]
        uuidCount := 1
        createRequests := List.replicate 1 sampleBuiltClassic.1
        waitStatusCalls :=
          [(sampleBuiltClassic.2.RegionId, "i-sample", InstanceStatusStopped)]
        describeRequests :=
          [describeInstancesRequestFor sampleState.config "i-sample"]
        haltError := none } :=
  c3_success_polls_stopped_refetches_and_publishes sampleStep sampleState
    envSuccess sampleBuiltClassic.1 sampleBuiltClassic.2 1 1 "i-sample"
    sampleInstance [] rfl rfl rfl rfl

/-- A run environment in which creation succeeds but the status poll
fails. -/
def envWaitFails : RunEnv :=
  { envSuccess with
    waitForInstanceStatus := fun _ _ _ => ApiResult.err "WaitTimeout" }

/-- A run environment in which creation and the status poll succeed but
the describe call fails. -/
def envDescribeFails : RunEnv :=
  { envSuccess with
    describeInstances := fun _ => ApiResult.err "InvalidInstanceId.NotFound" }

/-- A cleanup environment whose deletion call always succeeds. -/
def envDeleteOk : CleanupEnv :=
  { deleteInstance := fun _ _ => ApiResult.ok () }

/-- C4: if `Run` halts after the creation request succeeded but before the
descriptor re-fetch succeeded (the status poll fails, or the describe call
fails), the step's `instance_` field is still `none`, so a subsequent
`Cleanup` issues no deletion request at all. -/
theorem c4_halt_between_create_and_refetch_skips_delete
    (s : StepCreateApsaraStackInstance) (state : StateBag) (env : RunEnv)
    (req : CreateInstanceRequest) (s' : StepCreateApsaraStackInstance)
    (u n : Nat) (instId : String) (stateD : StateBag) (envD : CleanupEnv)
    (hnil : s.instance_ = none)
    (hbuild : buildCreateInstanceRequest s state env.readFile env.uuids 0 =
      (Except.ok (req, s'), u))
    (hcreate : waitForExpected createInstanceRetryErrors defaultRetryTimes
      (fun i => env.createInstance req i) = (ApiResult.ok instId, n)) :
    (∀ e, env.waitForInstanceStatus s'.RegionId instId
        InstanceStatusStopped = ApiResult.err e →
      (Run s state env).action = some StepAction.Halt ∧
      (Run s state env).step.instance_ = none ∧
      Cleanup (Run s state env).step stateD envD =
        { deleteRequests := [], uiMessages := [] }) ∧
    (∀ e, env.waitForInstanceStatus s'.RegionId instId
        InstanceStatusStopped = ApiResult.ok () →
      env.describeInstances
          (describeInstancesRequestFor state.config instId) =
        ApiResult.err e →
      (Run s state env).action = some StepAction.Halt ∧
      (Run s state env).step.instance_ = none ∧
      Cleanup (Run s state env).step stateD envD =
        { deleteRequests := [], uiMessages := [] }) := by
  have hs' : s'.instance_ = none := by
    have hpres := (buildCreateInstanceRequest_ok_spec s state env.readFile
      env.uuids 0 req s' u hbuild).2.2.2.1
    rw [hpres, hnil]
  constructor
  · intro e hwaitErr
    have hrun : (Run s state env).action = some StepAction.Halt ∧
        (Run s state env).step = s' := by
      unfold Run
      rw [hbuild]
      simp [hcreate, hwaitErr]
    refine ⟨hrun.1, ?_, ?_⟩
    · rw [hrun.2, hs']
    · rw [hrun.2]
      unfold Cleanup
      rw [hs']
  · intro e hwaitOk hdescErr
    have hrun : (Run s state env).action = some StepAction.Halt ∧
        (Run s state env).step = s' := by
      unfold Run
      rw [hbuild]
      simp [hcreate, hwaitOk, hdescErr]
    refine ⟨hrun.1, ?_, ?_⟩
    · rw [hrun.2, hs']
    · rw [hrun.2]
      unfold Cleanup
      rw [hs']

theorem c4_halt_between_create_and_refetch_skips_delete_witness :
    ((Run sampleStep sampleState envWaitFails).action =
        some StepAction.Halt ∧
      (Run sampleStep sampleState envWaitFails).step.instance_ = none ∧
      Cleanup (Run sampleStep sampleState envWaitFails).step sampleState
        envDeleteOk = { deleteRequests := [], uiMessages := [] }) ∧
    ((Run sampleStep sampleState envDescribeFails).action =
        some StepAction.Halt ∧
      (Run sampleStep sampleState envDescribeFails).step.instance_ = none ∧
      Cleanup (Run sampleStep sampleState envDescribeFails).step sampleState
        envDeleteOk = { deleteRequests := [], uiMessages := [] }) :=
  ⟨(c4_halt_between_create_and_refetch_skips_delete sampleStep sampleState
      envWaitFails sampleBuiltClassic.1 sampleBuiltClassic.2 1 1 "i-sample"
      sampleState envDeleteOk rfl rfl rfl).1 "WaitTimeout" rfl,
    (c4_halt_between_create_and_refetch_skips_delete sampleStep sampleState
      envDescribeFails sampleBuiltClassic.1 sampleBuiltClassic.2 1 1
      "i-sample" sampleState envDeleteOk rfl rfl rfl).2
      "InvalidInstanceId.NotFound" rfl rfl⟩

theorem buildCreateInstanceRequest_vpc_userData
    (s : StepCreateApsaraStackInstance) (state : StateBag)
    (readFile : String → Except String String) (uuids : Nat → String)
    (next : Nat) (req : CreateInstanceRequest)
    (s' : StepCreateApsaraStackInstance) (u : Nat) (ud : String)
    (hvpc : state.networktype = InstanceNetworkVpc)
    (hud : getUserData s readFile = Except.ok ud)
    (h : buildCreateInstanceRequest s state readFile uuids next =
      (Except.ok (req, s'), u)) :
    req.UserData = ud := by
  unfold buildCreateInstanceRequest at h
  simp only [hvpc, hud, if_pos, Prod.mk.injEq, Except.ok.injEq] at h
  obtain ⟨⟨hreq, _⟩, _⟩ := h
  subst hreq
  cases hio : s.IOOptimized <;> rfl

/-- The sample step configured with a user-data file path. -/
def sampleStepWithFile : StepCreateApsaraStackInstance :=
  { sampleStep with UserDataFile := "cloud-init.yaml" }

/-- The sample step configured with inline user-data. -/
def sampleStepInline : StepCreateApsaraStackInstance :=
  { sampleStep with UserData := "hi" }

/-- A sample file system in which every read yields "hello world". -/
def sampleReadFileOk : String → Except String String :=
  fun _ => Except.ok "hello world"

/-- The creation request built for the file-sourced user-data sample in
VPC mode. -/
def sampleBuiltVpcFile :
    CreateInstanceRequest × StepCreateApsaraStackInstance :=
  match buildCreateInstanceRequest sampleStepWithFile sampleStateVpc
      sampleReadFileOk sampleUuids 0 with
  | (Except.ok p, _) => p
  | (Except.error _, _) => ({}, sampleStepWithFile)

/-- The creation request built for the inline user-data sample in VPC
mode. -/
def sampleBuiltVpcInline :
    CreateInstanceRequest × StepCreateApsaraStackInstance :=
  match buildCreateInstanceRequest sampleStepInline sampleStateVpc
      sampleReadFile sampleUuids 0 with
  | (Except.ok p, _) => p
  | (Except.error _, _) => ({}, sampleStepInline)

/-- C5: the user-data placed in the creation request is base64-encoded if
and only if it is non-empty after resolving the source (file contents when
a user-data file path is set, the inline string otherwise); when empty it
is passed through unencoded as the empty string. -/
theorem c5_userdata_base64_iff_nonempty
    (s : StepCreateApsaraStackInstance) (state : StateBag)
    (readFile : String → Except String String) (uuids : Nat → String)
    (hvpc : state.networktype = InstanceNetworkVpc) :
    (∀ data req s' u, s.UserDataFile ≠ "" →
      readFile s.UserDataFile = Except.ok data →
      buildCreateInstanceRequest s state readFile uuids 0 =
        (Except.ok (req, s'), u) →
      req.UserData = (if data = "" then "" else base64Encode data)) ∧
    (∀ req s' u, s.UserDataFile = "" →
      buildCreateInstanceRequest s state readFile uuids 0 =
        (Except.ok (req, s'), u) →
      req.UserData =
        (if s.UserData = "" then "" else base64Encode s.UserData)) := by
  constructor
  · intro data req s' u hfile hread hb
    have hud : getUserData s readFile =
        Except.ok (if data ≠ "" then base64Encode data else data) := by
      unfold getUserData
      simp [hfile, hread]
    have hval := buildCreateInstanceRequest_vpc_userData s state readFile
      uuids 0 req s' u _ hvpc hud hb
    rw [hval]
    by_cases hd : data = "" <;> simp [hd]
  · intro req s' u hfile hb
    have hud : getUserData s readFile =
        Except.ok (if s.UserData ≠ "" then base64Encode s.UserData
          else s.UserData) := by
      unfold getUserData
      simp [hfile]
    have hval := buildCreateInstanceRequest_vpc_userData s state readFile
      uuids 0 req s' u _ hvpc hud hb
    rw [hval]
    by_cases hd : s.UserData = "" <;> simp [hd]

theorem c5_userdata_base64_iff_nonempty_witness :
    sampleBuiltVpcFile.1.UserData =
      (if "hello world" = "" then "" else base64Encode "hello world") ∧
    sampleBuiltVpcInline.1.UserData =
      (if "hi" = "" then "" else base64Encode "hi") :=
  ⟨(c5_userdata_base64_iff_nonempty sampleStepWithFile sampleStateVpc
      sampleReadFileOk sampleUuids rfl).1 "hello world"
      sampleBuiltVpcFile.1 sampleBuiltVpcFile.2 1 (by decide) rfl rfl,
    (c5_userdata_base64_iff_nonempty sampleStepInline sampleStateVpc
      sampleReadFile sampleUuids rfl).2
      sampleBuiltVpcInline.1 sampleBuiltVpcInline.2 1 rfl rfl⟩

/-- The creation request built for the plain sample step in VPC mode. -/
def sampleBuiltVpc :
    CreateInstanceRequest × StepCreateApsaraStackInstance :=
  match buildCreateInstanceRequest sampleStep sampleStateVpc
      sampleReadFile sampleUuids 0 with
  | (Except.ok p, _) => p
  | (Except.error _, _) => ({}, sampleStep)

/-- C6: in classic (non-VPC) network mode the internet charge type
defaults to "PayByTraffic" exactly when the configured value is the empty
string and the max outbound bandwidth defaults to 5 exactly when the
configured value is 0 (configured values pass through unchanged
otherwise), while in VPC mode no defaults are applied. -/
theorem c6_classic_defaults_only_when_unset
    (s : StepCreateApsaraStackInstance) (state : StateBag)
    (readFile : String → Except String String) (uuids : Nat → String) :
    (state.networktype ≠ InstanceNetworkVpc →
      ∀ req s' u, buildCreateInstanceRequest s state readFile uuids 0 =
          (Except.ok (req, s'), u) →
        req.InternetChargeType =
          (if s.InternetChargeType = "" then "PayByTraffic"
            else s.InternetChargeType) ∧
        req.InternetMaxBandwidthOut =
          convertNumber (if s.InternetMaxBandwidthOut = 0 then 5
            else s.InternetMaxBandwidthOut)) ∧
    (state.networktype = InstanceNetworkVpc →
      ∀ req s' u, buildCreateInstanceRequest s state readFile uuids 0 =
          (Except.ok (req, s'), u) →
        req.InternetChargeType = s.InternetChargeType ∧
        req.InternetMaxBandwidthOut =
          convertNumber s.InternetMaxBandwidthOut) := by
  constructor
  · intro hn req s' u hb
    obtain ⟨-, -, -, -, hict, himbo, -, hclassic⟩ :=
      buildCreateInstanceRequest_ok_spec s state readFile uuids 0 req s' u hb
    obtain ⟨-, hict', himbo'⟩ := hclassic hn
    exact ⟨by rw [hict, hict'], by rw [himbo, himbo']⟩
  · intro hv req s' u hb
    obtain ⟨-, -, -, -, hict, himbo, hvpc, -⟩ :=
      buildCreateInstanceRequest_ok_spec s state readFile uuids 0 req s' u hb
    rw [hvpc hv] at hict himbo
    exact ⟨hict, himbo⟩

theorem c6_classic_defaults_only_when_unset_witness :
    (sampleBuiltClassic.1.InternetChargeType =
        (if sampleStep.InternetChargeType = "" then "PayByTraffic"
          else sampleStep.InternetChargeType) ∧
      sampleBuiltClassic.1.InternetMaxBandwidthOut =
        convertNumber (if sampleStep.InternetMaxBandwidthOut = 0 then 5
          else sampleStep.InternetMaxBandwidthOut)) ∧
    (sampleBuiltVpc.1.InternetChargeType = sampleStep.InternetChargeType ∧
      sampleBuiltVpc.1.InternetMaxBandwidthOut =
        convertNumber sampleStep.InternetMaxBandwidthOut) :=
  ⟨(c6_classic_defaults_only_when_unset sampleStep sampleState
      sampleReadFile sampleUuids).1 (by decide)
      sampleBuiltClassic.1 sampleBuiltClassic.2 1 rfl,
    (c6_classic_defaults_only_when_unset sampleStep sampleStateVpc
      sampleReadFile sampleUuids).2 rfl
      sampleBuiltVpc.1 sampleBuiltVpc.2 1 rfl⟩

/-- The sample disk with encryption explicitly enabled. -/
def sampleDiskTrue : DiskDevice :=
  { sampleDisk with Encrypted := Trilean.TriTrue }

/-- The sample disk with encryption explicitly disabled. -/
def sampleDiskFalse : DiskDevice :=
  { sampleDisk with Encrypted := Trilean.TriFalse }

/-- C7: the creation request carries one data-disk entry per configured
disk mapping (built by `buildDataDisk`), and for each disk the encryption
field is left at its zero value (absent) when the tri-state is unset, and
is the string form of the boolean when the tri-state is explicitly true or
false. -/
theorem c7_datadisk_encryption_tristate
    (s : StepCreateApsaraStackInstance) (state : StateBag)
    (readFile : String → Except String String) (uuids : Nat → String)
    (req : CreateInstanceRequest) (s' : StepCreateApsaraStackInstance)
    (u : Nat)
    (hbuild : buildCreateInstanceRequest s state readFile uuids 0 =
      (Except.ok (req, s'), u)) :
    req.DataDisk = state.config.ECSImagesDiskMappings.map buildDataDisk ∧
    ∀ d : DiskDevice,
      (d.Encrypted = Trilean.TriUnset → (buildDataDisk d).Encrypted = "") ∧
      (d.Encrypted = Trilean.TriTrue →
        (buildDataDisk d).Encrypted = "true") ∧
      (d.Encrypted = Trilean.TriFalse →
        (buildDataDisk d).Encrypted = "false") := by
  refine ⟨(buildCreateInstanceRequest_ok_spec s state readFile uuids 0
    req s' u hbuild).2.2.1, ?_⟩
  intro d
  refine ⟨fun h => ?_, fun h => ?_, fun h => ?_⟩ <;>
    simp [buildDataDisk, h, Trilean.True, FormatBool]

theorem c7_datadisk_encryption_tristate_witness :
    sampleBuiltClassic.1.DataDisk =
      sampleState.config.ECSImagesDiskMappings.map buildDataDisk ∧
    (buildDataDisk sampleDisk).Encrypted = "" ∧
    (buildDataDisk sampleDiskTrue).Encrypted = "true" ∧
    (buildDataDisk sampleDiskFalse).Encrypted = "false" := by
  have h := c7_datadisk_encryption_tristate sampleStep sampleState
    sampleReadFile sampleUuids sampleBuiltClassic.1 sampleBuiltClassic.2 1
    rfl
  exact ⟨h.1, (h.2 sampleDisk).1 rfl, (h.2 sampleDiskTrue).2.1 rfl,
    (h.2 sampleDiskFalse).2.2 rfl⟩

/-- C8: `Cleanup` issues its deletion request through the same generic
retry wrapper (`waitForExpected`) as creation, evaluated against the
deletion retry set (only "IncorrectInstanceStatus.Initializing") with the
shorter budget `shortRetryTimes < defaultRetryTimes`, and the request
carries the force-deletion flag set via `NewBoolean true`. -/
theorem c8_cleanup_same_wrapper_short_budget_forced :
    shortRetryTimes < defaultRetryTimes ∧
    deleteInstanceRetryErrors = ["IncorrectInstanceStatus.Initializing"] ∧
    ∀ (s : StepCreateApsaraStackInstance) (state : StateBag)
      (env : CleanupEnv) (inst : Instance), s.instance_ = some inst →
      (Cleanup s state env).deleteRequests =
        List.replicate
          (waitForExpected deleteInstanceRetryErrors shortRetryTimes
            (fun i => env.deleteInstance
              (deleteInstanceRequestFor state.config inst) i)).2
          (deleteInstanceRequestFor state.config inst) ∧
      (deleteInstanceRequestFor state.config inst).Force = NewBoolean true := by
  refine ⟨by decide, rfl, ?_⟩
  intro s state env inst h
  constructor
  · unfold Cleanup
    rw [h]
    rcases hw : waitForExpected deleteInstanceRetryErrors shortRetryTimes
        (fun i => env.deleteInstance
          (deleteInstanceRequestFor state.config inst) i) with ⟨r, n⟩
    cases r <;> simp [hw]
  · rfl

theorem c8_cleanup_same_wrapper_short_budget_forced_witness :
    (Cleanup sampleStepCreated sampleState envDeleteOk).deleteRequests =
      List.replicate
        (waitForExpected deleteInstanceRetryErrors shortRetryTimes
          (fun i => envDeleteOk.deleteInstance
            (deleteInstanceRequestFor sampleState.config sampleInstance) i)).2
        (deleteInstanceRequestFor sampleState.config sampleInstance) ∧
    (deleteInstanceRequestFor sampleState.config sampleInstance).Force =
      NewBoolean true :=
  c8_cleanup_same_wrapper_short_budget_forced.2.2 sampleStepCreated
    sampleState envDeleteOk sampleInstance rfl

/-- C9: each invocation of `Run` generates exactly one client idempotency
token (the first value of the UUID stream), and every creation request
issued within that run — including every retried attempt — is the one
request value built before the retry loop, carrying that same token. -/
theorem c9_one_token_and_identical_retried_requests
    (s : StepCreateApsaraStackInstance) (state : StateBag) (env : RunEnv) :
    (Run s state env).uuidCount = 1 ∧
    ∀ r1, r1 ∈ (Run s state env).createRequests →
      r1.ClientToken = env.uuids 0 ∧
      ∀ r2, r2 ∈ (Run s state env).createRequests → r1 = r2 := by
  obtain ⟨hcnt, hshape⟩ := Run_uuidCount_createRequests s state env
  constructor
  · rw [hcnt, buildCreateInstanceRequest_uuidCount]
  · intro r1 h1
    rcases hshape with hnil | ⟨req, s', u, n, hb, hrep⟩
    · rw [hnil] at h1
      cases h1
    · rw [hrep] at h1
      have hr1 : r1 = req := List.eq_of_mem_replicate h1
      have htok := (buildCreateInstanceRequest_ok_spec s state env.readFile
        env.uuids 0 req s' u hb).2.1
      refine ⟨by rw [hr1, htok], ?_⟩
      intro r2 h2
      rw [hrep] at h2
      rw [hr1, List.eq_of_mem_replicate h2]

theorem c9_one_token_and_identical_retried_requests_witness :
    (Run sampleStep sampleState envSuccess).uuidCount = 1 ∧
    sampleBuiltClassic.1.ClientToken = envSuccess.uuids 0 :=
  ⟨(c9_one_token_and_identical_retried_requests sampleStep sampleState
      envSuccess).1,
    ((c9_one_token_and_identical_retried_requests sampleStep sampleState
      envSuccess).2 sampleBuiltClassic.1 (by decide)).1⟩

/-- C10: in classic (non-VPC) network mode the creation request's
user-data field is left at the empty string regardless of the configured
inline user-data or user-data file, and the user-data file is never read —
the build result does not depend on the file system at all. -/
theorem c10_classic_ignores_userdata_and_file
    (s : StepCreateApsaraStackInstance) (state : StateBag)
    (uuids : Nat → String)
    (readFile readFile2 : String → Except String String)
    (hn : state.networktype ≠ InstanceNetworkVpc) :
    (∀ req s' u,
      buildCreateInstanceRequest s state readFile uuids 0 =
        (Except.ok (req, s'), u) →
      req.UserData = "") ∧
    buildCreateInstanceRequest s state readFile uuids 0 =
      buildCreateInstanceRequest s state readFile2 uuids 0 := by
  constructor
  · intro req s' u hb
    exact ((buildCreateInstanceRequest_ok_spec s state readFile uuids 0
      req s' u hb).2.2.2.2.2.2.2 hn).1
  · unfold buildCreateInstanceRequest
    simp only [if_neg hn]

theorem c10_classic_ignores_userdata_and_file_witness :
    sampleBuiltClassic.1.UserData = "" ∧
    buildCreateInstanceRequest sampleStep sampleState sampleReadFile
        sampleUuids 0 =
      buildCreateInstanceRequest sampleStep sampleState sampleReadFileOk
        sampleUuids 0 :=
  ⟨(c10_classic_ignores_userdata_and_file sampleStep sampleState
      sampleUuids sampleReadFile sampleReadFileOk (by decide)).1
      sampleBuiltClassic.1 sampleBuiltClassic.2 1 rfl,
    (c10_classic_ignores_userdata_and_file sampleStep sampleState
      sampleUuids sampleReadFile sampleReadFileOk (by decide)).2⟩
